import Mathlib

/-!
Verification of the split GPU placement logic in
`verl/trainer/main_ppo_split.py` (`TaskRunnerSplit.init_resource_pool_mgr`).

The Python method reads `config.trainer.n_gpus_per_node` and
`config.trainer.nnodes`, builds a resource pool spec (a dict from pool name
to a per-node device-count list), mutates the inherited `self.mapping` dict
(role to pool name), optionally validates and appends a reward-model pool,
and returns a `ResourcePoolManager`.

The embedding below is explicit about the two effects of the method:
mutation of `self.mapping` (passed in and returned as state) and the
`ValueError` exceptions (an `Except` result). Integer config fields are
modelled as `Int`; Lean's `/` and `%` on `Int` are Euclidean, which for the
positive divisor `2` agrees with Python's floor division and modulo.
-/

namespace VerlSplit

/-- Logical roles of the training job. `ActorRollout` and `Critic` are the
members of `verl.trainer.ppo.ray_trainer.Role` used directly by the source
file; `Reference` and `RewardModel` are the further roles the spec's data
model declares (the `Role` enum itself is declared outside this source
tree). -/
inductive Role where
  | ActorRollout
  | Critic
  | Reference
  | RewardModel
deriving DecidableEq, Repr

/-- Association list with Python-dict update semantics: keys are unique as
long as every write goes through `dictSet`. -/
def dictSet {α β : Type} [DecidableEq α] : List (α × β) → α → β → List (α × β)
  | [], k, v => [(k, v)]
  | (k', v') :: rest, k, v =>
    if k' = k then (k, v) :: rest else (k', v') :: dictSet rest k v

/-- Python dict lookup: first binding of the key, if any. -/
def dictLookup {α β : Type} [DecidableEq α] : List (α × β) → α → Option β
  | [], _ => none
  | (k', v') :: rest, k => if k' = k then some v' else dictLookup rest k

/-- The `resource_pool_spec` dict: pool name to per-node device counts, in
insertion order. -/
abbrev PoolSpec := List (String × List Int)

/-- The `self.mapping` dict: role to pool name. -/
abbrev RoleMap := List (Role × String)

/-- The `config.trainer` fields read by the method. -/
structure TrainerConfig where
  n_gpus_per_node : Int
  nnodes : Int
deriving DecidableEq, Repr

/-- The `config.reward_model` fields read by the method. -/
structure RewardModelConfig where
  enable_resource_pool : Bool
  n_gpus_per_node : Int
  nnodes : Int
deriving DecidableEq, Repr

/-- The slice of the training config the method reads. -/
structure Config where
  trainer : TrainerConfig
  reward_model : RewardModelConfig
deriving DecidableEq, Repr

/-- Errors raised by the method: Python `ValueError` with its message. -/
inductive Err where
  | valueError (msg : String)
deriving DecidableEq, Repr

/-- The returned `ResourcePoolManager` value: the pool spec and the role
mapping it was constructed from. -/
structure ResourcePoolManager where
  resource_pool_spec : PoolSpec
  mapping : RoleMap
deriving DecidableEq, Repr

/-- Shallow embedding of `TaskRunnerSplit.init_resource_pool_mgr`
(`verl/trainer/main_ppo_split.py`, lines 93-155). The first component is
the returned manager or the raised `ValueError`; the second component is
the state of `self.mapping` after the call (the mutation happens before the
reward-model validation, so it persists even on error). -/
def init_resource_pool_mgr (self_mapping : RoleMap) (config : Config) :
    Except Err ResourcePoolManager × RoleMap :=
  let n_gpus_per_node := config.trainer.n_gpus_per_node
  let nnodes := config.trainer.nnodes
  let actor_rollout_ref_pool_id := "actor_rollout_ref_pool"
  let critic_pool_id := "critic_pool"
  let resource_pool_spec : PoolSpec :=
    if n_gpus_per_node % 2 = 0 then
      -- Even number of GPUs per node - split evenly
      let gpus_per_pool := n_gpus_per_node / 2
      [(actor_rollout_ref_pool_id, List.replicate nnodes.toNat gpus_per_pool),
       (critic_pool_id, List.replicate nnodes.toNat gpus_per_pool)]
    else
      -- Odd number of GPUs - give extra GPU to actor pool
      let actor_gpus := (n_gpus_per_node + 1) / 2
      let critic_gpus := n_gpus_per_node / 2
      [(actor_rollout_ref_pool_id, List.replicate nnodes.toNat actor_gpus),
       (critic_pool_id, List.replicate nnodes.toNat critic_gpus)]
  -- Map roles to resource pools
  let mapping := dictSet self_mapping Role.ActorRollout actor_rollout_ref_pool_id
  let mapping := dictSet mapping Role.Critic critic_pool_id
  -- Handle reward model placement
  if config.reward_model.enable_resource_pool then
    if config.reward_model.n_gpus_per_node ≤ 0 then
      (.error (.valueError "config.reward_model.n_gpus_per_node must be greater than 0"), mapping)
    else if config.reward_model.nnodes ≤ 0 then
      (.error (.valueError "config.reward_model.nnodes must be greater than 0"), mapping)
    else
      let reward_pool :=
        List.replicate config.reward_model.nnodes.toNat config.reward_model.n_gpus_per_node
      (.ok { resource_pool_spec := dictSet resource_pool_spec "reward_pool" reward_pool,
             mapping := mapping }, mapping)
  else
    (.ok { resource_pool_spec := resource_pool_spec, mapping := mapping }, mapping)

/-- Modelled from the spec: the binding of the Reference role. The base
class `TaskRunner` (`verl/trainer/main_ppo.py`, not part of this source
tree) is where plan construction binds the Reference role; per the spec's
`map_split`, "ActorRollout and Reference map to `actor_pool`" — Reference
shares the actor pool. The full role mapping produced by plan construction
under the split policy is therefore the mapping left by
`init_resource_pool_mgr` with Reference bound to the actor pool. -/
def split_plan_mapping (self_mapping : RoleMap) (config : Config) : RoleMap :=
  dictSet (init_resource_pool_mgr self_mapping config).2
    Role.Reference "actor_rollout_ref_pool"

/-! Lemmas about the dict operations. -/

theorem dictLookup_dictSet_self {α β : Type} [DecidableEq α]
    (m : List (α × β)) (k : α) (v : β) :
    dictLookup (dictSet m k v) k = some v := by
  induction m with
  | nil => simp [dictSet, dictLookup]
  | cons p rest ih =>
    obtain ⟨a, b⟩ := p
    by_cases hak : a = k
    · simp [dictSet, dictLookup, hak]
    · simp [dictSet, dictLookup, hak, ih]

theorem dictLookup_dictSet_ne {α β : Type} [DecidableEq α]
    (m : List (α × β)) (k k' : α) (v : β) (h : k ≠ k') :
    dictLookup (dictSet m k v) k' = dictLookup m k' := by
  induction m with
  | nil => simp [dictSet, dictLookup, h]
  | cons p rest ih =>
    obtain ⟨a, b⟩ := p
    by_cases hak : a = k
    · subst hak
      simp [dictSet, dictLookup, h, fun hh : a = k' => h (hh ▸ rfl)]
    · simp [dictSet, dictLookup, hak, ih]

theorem dictSet_eq_of_lookup_eq {α β : Type} [DecidableEq α]
    (m : List (α × β)) (k : α) (v : β) (h : dictLookup m k = some v) :
    dictSet m k v = m := by
  induction m with
  | nil => simp [dictLookup] at h
  | cons p rest ih =>
    obtain ⟨a, b⟩ := p
    by_cases hak : a = k
    · subst hak
      simp [dictLookup] at h
      simp [dictSet, h]
    · simp [dictLookup, hak] at h
      simp [dictSet, hak, ih h]

/-- The state of `self.mapping` after the call, in every branch: the two
role bindings are written before the reward-model validation, so they are
present whether the call raises or returns. -/
theorem init_resource_pool_mgr_snd (m : RoleMap) (cfg : Config) :
    (init_resource_pool_mgr m cfg).2 =
      dictSet (dictSet m Role.ActorRollout "actor_rollout_ref_pool")
        Role.Critic "critic_pool" := by
  by_cases hen : cfg.reward_model.enable_resource_pool
  · by_cases h1 : cfg.reward_model.n_gpus_per_node ≤ 0
    · simp [init_resource_pool_mgr, hen, h1]
    · by_cases h2 : cfg.reward_model.nnodes ≤ 0
      · simp [init_resource_pool_mgr, hen, h1, h2]
      · simp [init_resource_pool_mgr, hen, h1, h2]
  · simp [init_resource_pool_mgr, hen]

/-- The result of the call depends on the initial mapping only through the
doubly-updated mapping value. -/
theorem init_resource_pool_mgr_mapping_congr (m₁ m₂ : RoleMap) (cfg : Config)
    (h : dictSet (dictSet m₁ Role.ActorRollout "actor_rollout_ref_pool")
           Role.Critic "critic_pool"
       = dictSet (dictSet m₂ Role.ActorRollout "actor_rollout_ref_pool")
           Role.Critic "critic_pool") :
    init_resource_pool_mgr m₁ cfg = init_resource_pool_mgr m₂ cfg := by
  simp only [init_resource_pool_mgr]
  rw [h]

/-- C8: under the split policy, plan construction binds ActorRollout and
Reference to `actor_rollout_ref_pool` and Critic to `critic_pool`, from any
initial mapping and any config. -/
theorem roles_bound_by_split_plan (m : RoleMap) (cfg : Config) :
    dictLookup (split_plan_mapping m cfg) Role.ActorRollout =
      some "actor_rollout_ref_pool" ∧
    dictLookup (split_plan_mapping m cfg) Role.Reference =
      some "actor_rollout_ref_pool" ∧
    dictLookup (split_plan_mapping m cfg) Role.Critic = some "critic_pool" := by
  unfold split_plan_mapping
  rw [init_resource_pool_mgr_snd]
  refine ⟨?_, ?_, ?_⟩
  · rw [dictLookup_dictSet_ne _ _ _ _ (by decide),
        dictLookup_dictSet_ne _ _ _ _ (by decide)]
    exact dictLookup_dictSet_self ..
  · exact dictLookup_dictSet_self ..
  · rw [dictLookup_dictSet_ne _ _ _ _ (by decide)]
    exact dictLookup_dictSet_self ..

/-- C9: plan construction is idempotent in the stateful sense: running the
method a second time, starting from the mapping state the first run left
behind, returns the same manager (or the same error) and the same final
mapping state as the first run. -/
theorem init_resource_pool_mgr_idempotent (m : RoleMap) (cfg : Config) :
    init_resource_pool_mgr (init_resource_pool_mgr m cfg).2 cfg =
      init_resource_pool_mgr m cfg := by
  rw [init_resource_pool_mgr_snd]
  apply init_resource_pool_mgr_mapping_congr
  have h1 : dictLookup
      (dictSet (dictSet m Role.ActorRollout "actor_rollout_ref_pool")
        Role.Critic "critic_pool") Role.ActorRollout =
      some "actor_rollout_ref_pool" := by
    rw [dictLookup_dictSet_ne _ _ _ _ (by decide)]
    exact dictLookup_dictSet_self ..
  rw [dictSet_eq_of_lookup_eq _ _ _ h1]
  exact dictSet_eq_of_lookup_eq _ _ _ (dictLookup_dictSet_self ..)

/-- C1: with odd `n_gpus_per_node` the split assigns `(n+1)/2 = ceil(n/2)`
devices per node to `actor_rollout_ref_pool` and `n/2 = floor(n/2)` per
node to `critic_pool`, uniformly on every node, and the two counts sum to
`n_gpus_per_node`. -/
theorem split_odd_allocation (cfg : Config) (m : RoleMap)
    (mgr : ResourcePoolManager)
    (hn : 1 ≤ cfg.trainer.nnodes)
    (hodd : cfg.trainer.n_gpus_per_node % 2 = 1)
    (hok : (init_resource_pool_mgr m cfg).1 = Except.ok mgr) :
    dictLookup mgr.resource_pool_spec "actor_rollout_ref_pool" =
      some (List.replicate cfg.trainer.nnodes.toNat
        ((cfg.trainer.n_gpus_per_node + 1) / 2)) ∧
    dictLookup mgr.resource_pool_spec "critic_pool" =
      some (List.replicate cfg.trainer.nnodes.toNat
        (cfg.trainer.n_gpus_per_node / 2)) ∧
    (cfg.trainer.n_gpus_per_node + 1) / 2 + cfg.trainer.n_gpus_per_node / 2 =
      cfg.trainer.n_gpus_per_node ∧
    (cfg.trainer.n_gpus_per_node + 1) / 2 =
      cfg.trainer.n_gpus_per_node / 2 + 1 := by
  have hne : ¬ (cfg.trainer.n_gpus_per_node % 2 = 0) := by omega
  by_cases hen : cfg.reward_model.enable_resource_pool
  · by_cases h1 : cfg.reward_model.n_gpus_per_node ≤ 0
    · simp [init_resource_pool_mgr, hen, h1] at hok
    · by_cases h2 : cfg.reward_model.nnodes ≤ 0
      · simp [init_resource_pool_mgr, hen, h1, h2] at hok
      · simp [init_resource_pool_mgr, hen, h1, h2, hne] at hok
        subst hok
        refine ⟨?_, ?_, by omega, by omega⟩ <;> simp [dictSet, dictLookup]
  · simp [init_resource_pool_mgr, hen, hne] at hok
    subst hok
    refine ⟨?_, ?_, by omega, by omega⟩ <;> simp [dictLookup]

/-- C2: with even `n_gpus_per_node` the split assigns `n/2` devices per
node to each of the two pools, uniformly on every node, the counts summing
to `n_gpus_per_node`. -/
theorem split_even_allocation (cfg : Config) (m : RoleMap)
    (mgr : ResourcePoolManager)
    (hn : 1 ≤ cfg.trainer.nnodes)
    (hd : 2 ≤ cfg.trainer.n_gpus_per_node)
    (heven : cfg.trainer.n_gpus_per_node % 2 = 0)
    (hok : (init_resource_pool_mgr m cfg).1 = Except.ok mgr) :
    dictLookup mgr.resource_pool_spec "actor_rollout_ref_pool" =
      some (List.replicate cfg.trainer.nnodes.toNat
        (cfg.trainer.n_gpus_per_node / 2)) ∧
    dictLookup mgr.resource_pool_spec "critic_pool" =
      some (List.replicate cfg.trainer.nnodes.toNat
        (cfg.trainer.n_gpus_per_node / 2)) ∧
    cfg.trainer.n_gpus_per_node / 2 + cfg.trainer.n_gpus_per_node / 2 =
      cfg.trainer.n_gpus_per_node := by
  by_cases hen : cfg.reward_model.enable_resource_pool
  · by_cases h1 : cfg.reward_model.n_gpus_per_node ≤ 0
    · simp [init_resource_pool_mgr, hen, h1] at hok
    · by_cases h2 : cfg.reward_model.nnodes ≤ 0
      · simp [init_resource_pool_mgr, hen, h1, h2] at hok
      · simp [init_resource_pool_mgr, hen, h1, h2, heven] at hok
        subst hok
        refine ⟨?_, ?_, by omega⟩ <;> simp [dictSet, dictLookup]
  · simp [init_resource_pool_mgr, hen, heven] at hok
    subst hok
    refine ⟨?_, ?_, by omega⟩ <;> simp [dictLookup]

/-- C3: whenever the call returns a manager, the per-node device counts of
the two primary pools sum to exactly `n_gpus_per_node` at every node index
(so they never exceed it), whether or not a reward pool was appended: the
auxiliary pool never changes a primary node's count. -/
theorem per_node_conservation (cfg : Config) (m : RoleMap)
    (mgr : ResourcePoolManager) (A C : List Int)
    (hok : (init_resource_pool_mgr m cfg).1 = Except.ok mgr)
    (hA : dictLookup mgr.resource_pool_spec "actor_rollout_ref_pool" = some A)
    (hC : dictLookup mgr.resource_pool_spec "critic_pool" = some C) :
    A.length = cfg.trainer.nnodes.toNat ∧
    C.length = cfg.trainer.nnodes.toNat ∧
    ∀ (i : Nat) (hiA : i < A.length) (hiC : i < C.length),
      A.get ⟨i, hiA⟩ + C.get ⟨i, hiC⟩ = cfg.trainer.n_gpus_per_node := by
  by_cases hpar : cfg.trainer.n_gpus_per_node % 2 = 0 <;>
  · by_cases hen : cfg.reward_model.enable_resource_pool
    · by_cases h1 : cfg.reward_model.n_gpus_per_node ≤ 0
      · simp [init_resource_pool_mgr, hen, h1] at hok
      · by_cases h2 : cfg.reward_model.nnodes ≤ 0
        · simp [init_resource_pool_mgr, hen, h1, h2] at hok
        · simp [init_resource_pool_mgr, hen, h1, h2, hpar] at hok
          subst hok
          simp [dictSet, dictLookup] at hA hC
          subst hA
          subst hC
          refine ⟨by simp, by simp, ?_⟩
          intro i hiA hiC
          simp
          omega
    · simp [init_resource_pool_mgr, hen, hpar] at hok
      subst hok
      simp [dictLookup] at hA hC
      subst hA
      subst hC
      refine ⟨by simp, by simp, ?_⟩
      intro i hiA hiC
      simp
      omega

/-- C10: at every node index the actor pool's count exceeds the critic
pool's count by exactly `n_gpus_per_node % 2`: never smaller, larger by at
most one. -/
theorem actor_minus_critic (cfg : Config) (m : RoleMap)
    (mgr : ResourcePoolManager) (A C : List Int)
    (hd : 1 ≤ cfg.trainer.n_gpus_per_node)
    (hn : 1 ≤ cfg.trainer.nnodes)
    (hok : (init_resource_pool_mgr m cfg).1 = Except.ok mgr)
    (hA : dictLookup mgr.resource_pool_spec "actor_rollout_ref_pool" = some A)
    (hC : dictLookup mgr.resource_pool_spec "critic_pool" = some C) :
    ∀ (i : Nat) (hiA : i < A.length) (hiC : i < C.length),
      A.get ⟨i, hiA⟩ - C.get ⟨i, hiC⟩ = cfg.trainer.n_gpus_per_node % 2 ∧
      C.get ⟨i, hiC⟩ ≤ A.get ⟨i, hiA⟩ ∧
      A.get ⟨i, hiA⟩ ≤ C.get ⟨i, hiC⟩ + 1 := by
  by_cases hpar : cfg.trainer.n_gpus_per_node % 2 = 0 <;>
  · by_cases hen : cfg.reward_model.enable_resource_pool
    · by_cases h1 : cfg.reward_model.n_gpus_per_node ≤ 0
      · simp [init_resource_pool_mgr, hen, h1] at hok
      · by_cases h2 : cfg.reward_model.nnodes ≤ 0
        · simp [init_resource_pool_mgr, hen, h1, h2] at hok
        · simp [init_resource_pool_mgr, hen, h1, h2, hpar] at hok
          subst hok
          simp [dictSet, dictLookup] at hA hC
          subst hA
          subst hC
          intro i hiA hiC
          simp
          omega
    · simp [init_resource_pool_mgr, hen, hpar] at hok
      subst hok
      simp [dictLookup] at hA hC
      subst hA
      subst hC
      intro i hiA hiC
      simp
      omega

/-- C4 counterexample: with `n_gpus_per_node = 1` the method does not
raise any error; it returns a manager whose `critic_pool` row is the
zero-device row `[0]` (the odd branch computes `1 // 2 = 0`). -/
theorem split_single_device_counterexample :
    init_resource_pool_mgr []
      { trainer := { n_gpus_per_node := 1, nnodes := 1 },
        reward_model :=
          { enable_resource_pool := false, n_gpus_per_node := 0, nnodes := 0 } } =
      (Except.ok
        { resource_pool_spec :=
            [("actor_rollout_ref_pool", [1]), ("critic_pool", [0])],
          mapping :=
            [(Role.ActorRollout, "actor_rollout_ref_pool"),
             (Role.Critic, "critic_pool")] },
       [(Role.ActorRollout, "actor_rollout_ref_pool"),
        (Role.Critic, "critic_pool")]) := rfl

/-- C4 (amended): with `n_gpus_per_node = 1` the method performs no
cluster-shape validation at all: it silently produces
`actor_rollout_ref_pool = [1, ...]` and the implicit zero-device row
`critic_pool = [0, ...]` on every node. -/
theorem split_single_device_zero_row (cfg : Config) (m : RoleMap)
    (mgr : ResourcePoolManager)
    (hd : cfg.trainer.n_gpus_per_node = 1)
    (hok : (init_resource_pool_mgr m cfg).1 = Except.ok mgr) :
    dictLookup mgr.resource_pool_spec "critic_pool" =
      some (List.replicate cfg.trainer.nnodes.toNat 0) ∧
    dictLookup mgr.resource_pool_spec "actor_rollout_ref_pool" =
      some (List.replicate cfg.trainer.nnodes.toNat 1) := by
  have hpar : ¬ (cfg.trainer.n_gpus_per_node % 2 = 0) := by omega
  by_cases hen : cfg.reward_model.enable_resource_pool
  · by_cases h1 : cfg.reward_model.n_gpus_per_node ≤ 0
    · simp [init_resource_pool_mgr, hen, h1] at hok
    · by_cases h2 : cfg.reward_model.nnodes ≤ 0
      · simp [init_resource_pool_mgr, hen, h1, h2] at hok
      · simp [init_resource_pool_mgr, hen, h1, h2, hpar, hd] at hok
        subst hok
        constructor <;> simp [dictSet, dictLookup]
  · simp [init_resource_pool_mgr, hen, hpar, hd] at hok
    subst hok
    constructor <;> simp [dictLookup]

/-- C5 counterexample: a failing construction is not all-or-nothing. From
an empty `self.mapping`, enabling the reward pool with
`n_gpus_per_node = 0` raises the `ValueError`, yet the two role bindings
written before the validation are left behind in `self.mapping`. -/
theorem failed_validation_counterexample :
    init_resource_pool_mgr []
      { trainer := { n_gpus_per_node := 2, nnodes := 1 },
        reward_model :=
          { enable_resource_pool := true, n_gpus_per_node := 0, nnodes := 1 } } =
      (Except.error (Err.valueError
         "config.reward_model.n_gpus_per_node must be greater than 0"),
       [(Role.ActorRollout, "actor_rollout_ref_pool"),
        (Role.Critic, "critic_pool")]) ∧
    ([(Role.ActorRollout, "actor_rollout_ref_pool"),
      (Role.Critic, "critic_pool")] : RoleMap) ≠ [] := ⟨rfl, by decide⟩

/-- C5 (amended): when validation fails the method returns no manager, but
the construction is not all-or-nothing: the ActorRollout and Critic
bindings have already been written into `self.mapping` and persist after
the error (only the pool spec itself is discarded). -/
theorem failed_validation_mapping_state (cfg : Config) (m : RoleMap) (e : Err)
    (herr : (init_resource_pool_mgr m cfg).1 = Except.error e) :
    (init_resource_pool_mgr m cfg).2 =
      dictSet (dictSet m Role.ActorRollout "actor_rollout_ref_pool")
        Role.Critic "critic_pool" ∧
    dictLookup (init_resource_pool_mgr m cfg).2 Role.ActorRollout =
      some "actor_rollout_ref_pool" ∧
    dictLookup (init_resource_pool_mgr m cfg).2 Role.Critic =
      some "critic_pool" := by
  refine ⟨init_resource_pool_mgr_snd m cfg, ?_, ?_⟩
  · rw [init_resource_pool_mgr_snd,
       dictLookup_dictSet_ne _ _ _ _ (by decide)]
    exact dictLookup_dictSet_self ..
  · rw [init_resource_pool_mgr_snd]
    exact dictLookup_dictSet_self ..

/-- C6: with the reward-model resource pool enabled, a non-positive
`n_gpus_per_node` or non-positive `nnodes` raises a `ValueError` whose
message names the offending configuration field (the device-count check
runs first). -/
theorem invalid_auxiliary_pool (cfg : Config) (m : RoleMap)
    (hen : cfg.reward_model.enable_resource_pool = true)
    (hbad : cfg.reward_model.n_gpus_per_node ≤ 0 ∨
            cfg.reward_model.nnodes ≤ 0) :
    (init_resource_pool_mgr m cfg).1 =
      Except.error (Err.valueError
        (if cfg.reward_model.n_gpus_per_node ≤ 0 then
          "config.reward_model.n_gpus_per_node must be greater than 0"
        else
          "config.reward_model.nnodes must be greater than 0")) := by
  by_cases h1 : cfg.reward_model.n_gpus_per_node ≤ 0
  · simp [init_resource_pool_mgr, hen, h1]
  · have h2 : cfg.reward_model.nnodes ≤ 0 := by tauto
    simp [init_resource_pool_mgr, hen, h1, h2]

/-- C7: with the reward pool enabled and both its counts positive, the
call succeeds and the returned spec is exactly the spec of the same run
with the reward pool disabled, with `("reward_pool", [n_gpus_per_node]
replicated nnodes times)` appended: the auxiliary pool is provisioned
against its own declared counts and takes nothing from the primary
pools. -/
theorem reward_pool_appended (cfg : Config) (m : RoleMap)
    (hen : cfg.reward_model.enable_resource_pool = true)
    (hgpu : 1 ≤ cfg.reward_model.n_gpus_per_node)
    (hnn : 1 ≤ cfg.reward_model.nnodes) :
    ∃ mgr mgr₀ : ResourcePoolManager,
      (init_resource_pool_mgr m cfg).1 = Except.ok mgr ∧
      (init_resource_pool_mgr m
        { cfg with reward_model :=
            { cfg.reward_model with enable_resource_pool := false } }).1 =
        Except.ok mgr₀ ∧
      mgr.resource_pool_spec =
        mgr₀.resource_pool_spec ++
          [("reward_pool",
            List.replicate cfg.reward_model.nnodes.toNat
              cfg.reward_model.n_gpus_per_node)] ∧
      dictLookup mgr.resource_pool_spec "reward_pool" =
        some (List.replicate cfg.reward_model.nnodes.toNat
          cfg.reward_model.n_gpus_per_node) ∧
      mgr.mapping = mgr₀.mapping := by
  have h1 : ¬ cfg.reward_model.n_gpus_per_node ≤ 0 := by omega
  have h2 : ¬ cfg.reward_model.nnodes ≤ 0 := by omega
  by_cases hpar : cfg.trainer.n_gpus_per_node % 2 = 0
  · refine ⟨⟨dictSet
        [("actor_rollout_ref_pool",
          List.replicate cfg.trainer.nnodes.toNat
            (cfg.trainer.n_gpus_per_node / 2)),
         ("critic_pool",
          List.replicate cfg.trainer.nnodes.toNat
            (cfg.trainer.n_gpus_per_node / 2))]
        "reward_pool"
        (List.replicate cfg.reward_model.nnodes.toNat
          cfg.reward_model.n_gpus_per_node),
      dictSet (dictSet m Role.ActorRollout "actor_rollout_ref_pool")
        Role.Critic "critic_pool"⟩,
      ⟨[("actor_rollout_ref_pool",
          List.replicate cfg.trainer.nnodes.toNat
            (cfg.trainer.n_gpus_per_node / 2)),
        ("critic_pool",
          List.replicate cfg.trainer.nnodes.toNat
            (cfg.trainer.n_gpus_per_node / 2))],
      dictSet (dictSet m Role.ActorRollout "actor_rollout_ref_pool")
        Role.Critic "critic_pool"⟩, ?_, ?_, ?_, ?_, rfl⟩
    · simp [init_resource_pool_mgr, hen, h1, h2, hpar]
    · simp [init_resource_pool_mgr, hpar]
    · simp [dictSet]
    · simp [dictSet, dictLookup]
  · refine ⟨⟨dictSet
        [("actor_rollout_ref_pool",
          List.replicate cfg.trainer.nnodes.toNat
            ((cfg.trainer.n_gpus_per_node + 1) / 2)),
         ("critic_pool",
          List.replicate cfg.trainer.nnodes.toNat
            (cfg.trainer.n_gpus_per_node / 2))]
        "reward_pool"
        (List.replicate cfg.reward_model.nnodes.toNat
          cfg.reward_model.n_gpus_per_node),
      dictSet (dictSet m Role.ActorRollout "actor_rollout_ref_pool")
        Role.Critic "critic_pool"⟩,
      ⟨[("actor_rollout_ref_pool",
          List.replicate cfg.trainer.nnodes.toNat
            ((cfg.trainer.n_gpus_per_node + 1) / 2)),
        ("critic_pool",
          List.replicate cfg.trainer.nnodes.toNat
            (cfg.trainer.n_gpus_per_node / 2))],
      dictSet (dictSet m Role.ActorRollout "actor_rollout_ref_pool")
        Role.Critic "critic_pool"⟩, ?_, ?_, ?_, ?_, rfl⟩
    · simp [init_resource_pool_mgr, hen, h1, h2, hpar]
    · simp [init_resource_pool_mgr, hpar]
    · simp [dictSet]
    · simp [dictSet, dictLookup]

/-! Concrete witnesses, one per hypothesis-bearing claim theorem, each at
one of the spec's scenarios. -/

/-- Scenario B instance of C1: `nodes = 1`, `devices_per_node = 3` gives
`actor_rollout_ref_pool = [2]` and `critic_pool = [1]`. -/
theorem split_odd_allocation_witness :
    dictLookup
      ({ resource_pool_spec :=
           [("actor_rollout_ref_pool", [2]), ("critic_pool", [1])],
         mapping := [(Role.ActorRollout, "actor_rollout_ref_pool"),
                     (Role.Critic, "critic_pool")] }
        : ResourcePoolManager).resource_pool_spec "actor_rollout_ref_pool" =
      some [2] ∧
    dictLookup
      ({ resource_pool_spec :=
           [("actor_rollout_ref_pool", [2]), ("critic_pool", [1])],
         mapping := [(Role.ActorRollout, "actor_rollout_ref_pool"),
                     (Role.Critic, "critic_pool")] }
        : ResourcePoolManager).resource_pool_spec "critic_pool" =
      some [1] ∧
    ((3 : Int) + 1) / 2 + (3 : Int) / 2 = 3 ∧
    ((3 : Int) + 1) / 2 = (3 : Int) / 2 + 1 :=
  split_odd_allocation
    { trainer := { n_gpus_per_node := 3, nnodes := 1 },
      reward_model :=
        { enable_resource_pool := false, n_gpus_per_node := 0, nnodes := 0 } }
    []
    { resource_pool_spec :=
        [("actor_rollout_ref_pool", [2]), ("critic_pool", [1])],
      mapping := [(Role.ActorRollout, "actor_rollout_ref_pool"),
                  (Role.Critic, "critic_pool")] }
    (by decide) (by decide) rfl

/-- Scenario A instance of C2: `nodes = 2`, `devices_per_node = 4` gives
`actor_rollout_ref_pool = [2, 2]` and `critic_pool = [2, 2]`. -/
theorem split_even_allocation_witness :
    dictLookup
      ({ resource_pool_spec :=
           [("actor_rollout_ref_pool", [2, 2]), ("critic_pool", [2, 2])],
         mapping := [(Role.ActorRollout, "actor_rollout_ref_pool"),
                     (Role.Critic, "critic_pool")] }
        : ResourcePoolManager).resource_pool_spec "actor_rollout_ref_pool" =
      some [2, 2] ∧
    dictLookup
      ({ resource_pool_spec :=
           [("actor_rollout_ref_pool", [2, 2]), ("critic_pool", [2, 2])],
         mapping := [(Role.ActorRollout, "actor_rollout_ref_pool"),
                     (Role.Critic, "critic_pool")] }
        : ResourcePoolManager).resource_pool_spec "critic_pool" =
      some [2, 2] ∧
    (4 : Int) / 2 + (4 : Int) / 2 = 4 :=
  split_even_allocation
    { trainer := { n_gpus_per_node := 4, nnodes := 2 },
      reward_model :=
        { enable_resource_pool := false, n_gpus_per_node := 0, nnodes := 0 } }
    []
    { resource_pool_spec :=
        [("actor_rollout_ref_pool", [2, 2]), ("critic_pool", [2, 2])],
      mapping := [(Role.ActorRollout, "actor_rollout_ref_pool"),
                  (Role.Critic, "critic_pool")] }
    (by decide) (by decide) (by decide) rfl

/-- Scenario C instance of C3: with the reward pool enabled on
`nodes = 2, devices_per_node = 2`, the two primary rows still sum to
exactly 2 on both nodes. -/
theorem per_node_conservation_witness :
    ([1, 1] : List Int).length = (2 : Int).toNat ∧
    ([1, 1] : List Int).length = (2 : Int).toNat ∧
    ∀ (i : Nat) (hiA : i < ([1, 1] : List Int).length)
      (hiC : i < ([1, 1] : List Int).length),
      ([1, 1] : List Int).get ⟨i, hiA⟩ + ([1, 1] : List Int).get ⟨i, hiC⟩ =
        2 :=
  per_node_conservation
    { trainer := { n_gpus_per_node := 2, nnodes := 2 },
      reward_model :=
        { enable_resource_pool := true, n_gpus_per_node := 1, nnodes := 1 } }
    []
    { resource_pool_spec :=
        [("actor_rollout_ref_pool", [1, 1]), ("critic_pool", [1, 1]),
         ("reward_pool", [1])],
      mapping := [(Role.ActorRollout, "actor_rollout_ref_pool"),
                  (Role.Critic, "critic_pool")] }
    [1, 1] [1, 1] rfl rfl rfl

/-- Scenario B instance of C10: at `devices_per_node = 3` the actor row
exceeds the critic row by `3 % 2 = 1` on the single node. -/
theorem actor_minus_critic_witness :
    ([2] : List Int).get ⟨0, by decide⟩ - ([1] : List Int).get ⟨0, by decide⟩ =
      (3 : Int) % 2 ∧
    ([1] : List Int).get ⟨0, by decide⟩ ≤ ([2] : List Int).get ⟨0, by decide⟩ ∧
    ([2] : List Int).get ⟨0, by decide⟩ ≤
      ([1] : List Int).get ⟨0, by decide⟩ + 1 :=
  actor_minus_critic
    { trainer := { n_gpus_per_node := 3, nnodes := 1 },
      reward_model :=
        { enable_resource_pool := false, n_gpus_per_node := 0, nnodes := 0 } }
    []
    { resource_pool_spec :=
        [("actor_rollout_ref_pool", [2]), ("critic_pool", [1])],
      mapping := [(Role.ActorRollout, "actor_rollout_ref_pool"),
                  (Role.Critic, "critic_pool")] }
    [2] [1] (by decide) (by decide) rfl rfl rfl 0 (by decide) (by decide)

/-- Scenario D instance of the amended C4: at `devices_per_node = 1` the
call succeeds and the critic row is the zero row `[0]`. -/
theorem split_single_device_zero_row_witness :
    dictLookup
      ({ resource_pool_spec :=
           [("actor_rollout_ref_pool", [1]), ("critic_pool", [0])],
         mapping := [(Role.ActorRollout, "actor_rollout_ref_pool"),
                     (Role.Critic, "critic_pool")] }
        : ResourcePoolManager).resource_pool_spec "critic_pool" =
      some [0] ∧
    dictLookup
      ({ resource_pool_spec :=
           [("actor_rollout_ref_pool", [1]), ("critic_pool", [0])],
         mapping := [(Role.ActorRollout, "actor_rollout_ref_pool"),
                     (Role.Critic, "critic_pool")] }
        : ResourcePoolManager).resource_pool_spec "actor_rollout_ref_pool" =
      some [1] :=
  split_single_device_zero_row
    { trainer := { n_gpus_per_node := 1, nnodes := 1 },
      reward_model :=
        { enable_resource_pool := false, n_gpus_per_node := 0, nnodes := 0 } }
    []
    { resource_pool_spec :=
        [("actor_rollout_ref_pool", [1]), ("critic_pool", [0])],
      mapping := [(Role.ActorRollout, "actor_rollout_ref_pool"),
                  (Role.Critic, "critic_pool")] }
    (by decide) rfl

/-- Scenario E instance of the amended C5: the failing reward-pool
validation leaves both role bindings in the mapping state. -/
theorem failed_validation_mapping_state_witness :
    (init_resource_pool_mgr []
      { trainer := { n_gpus_per_node := 2, nnodes := 1 },
        reward_model :=
          { enable_resource_pool := true, n_gpus_per_node := 0,
            nnodes := 1 } }).2 =
      dictSet (dictSet [] Role.ActorRollout "actor_rollout_ref_pool")
        Role.Critic "critic_pool" ∧
    dictLookup
      (init_resource_pool_mgr []
        { trainer := { n_gpus_per_node := 2, nnodes := 1 },
          reward_model :=
            { enable_resource_pool := true, n_gpus_per_node := 0,
              nnodes := 1 } }).2 Role.ActorRollout =
      some "actor_rollout_ref_pool" ∧
    dictLookup
      (init_resource_pool_mgr []
        { trainer := { n_gpus_per_node := 2, nnodes := 1 },
          reward_model :=
            { enable_resource_pool := true, n_gpus_per_node := 0,
              nnodes := 1 } }).2 Role.Critic =
      some "critic_pool" :=
  failed_validation_mapping_state
    { trainer := { n_gpus_per_node := 2, nnodes := 1 },
      reward_model :=
        { enable_resource_pool := true, n_gpus_per_node := 0, nnodes := 1 } }
    []
    (Err.valueError
      "config.reward_model.n_gpus_per_node must be greater than 0")
    rfl

/-- Scenario E instance of C6: enabling the reward pool with
`n_gpus_per_node = 0` raises the `ValueError` naming that field. -/
theorem invalid_auxiliary_pool_witness :
    (init_resource_pool_mgr []
      { trainer := { n_gpus_per_node := 2, nnodes := 1 },
        reward_model :=
          { enable_resource_pool := true, n_gpus_per_node := 0,
            nnodes := 1 } }).1 =
      Except.error (Err.valueError
        "config.reward_model.n_gpus_per_node must be greater than 0") :=
  invalid_auxiliary_pool
    { trainer := { n_gpus_per_node := 2, nnodes := 1 },
      reward_model :=
        { enable_resource_pool := true, n_gpus_per_node := 0, nnodes := 1 } }
    [] rfl (Or.inl (by decide))

/-- Scenario C instance of C7: `nodes = 2, devices_per_node = 2` with the
reward pool enabled at `n_gpus_per_node = 1, nnodes = 1` yields the three
pools `[1,1]`, `[1,1]`, `[1]`, the third appended to the untouched primary
spec. -/
theorem reward_pool_appended_witness :
    ∃ mgr mgr₀ : ResourcePoolManager,
      (init_resource_pool_mgr []
        { trainer := { n_gpus_per_node := 2, nnodes := 2 },
          reward_model :=
            { enable_resource_pool := true, n_gpus_per_node := 1,
              nnodes := 1 } }).1 = Except.ok mgr ∧
      (init_resource_pool_mgr []
        { trainer := { n_gpus_per_node := 2, nnodes := 2 },
          reward_model :=
            { enable_resource_pool := false, n_gpus_per_node := 1,
              nnodes := 1 } }).1 = Except.ok mgr₀ ∧
      mgr.resource_pool_spec =
        mgr₀.resource_pool_spec ++ [("reward_pool", [1])] ∧
      dictLookup mgr.resource_pool_spec "reward_pool" = some [1] ∧
      mgr.mapping = mgr₀.mapping :=
  reward_pool_appended
    { trainer := { n_gpus_per_node := 2, nnodes := 2 },
      reward_model :=
        { enable_resource_pool := true, n_gpus_per_node := 1, nnodes := 1 } }
    [] rfl (by decide) (by decide)

end VerlSplit
